import Mathlib

/-!
Verification development for the content resolution and recommendation pipeline
of the matheusmazeto blog repository.

The content files under `src/content/blog/<slug>/index.mdx` (and one content file
whose storage location is unknown) are embedded literally, front-matter by
front-matter.  The server module `blog.server` (`getAllPosts`, `getPostContent`,
`sortPostsByDate`, `getRecommendedPosts`) is not part of the available sources;
those operations are modelled from the specification, as marked on each
definition.  The two route loaders (`src/app/routes/blog.$slug.tsx` and the blog
index route) are translated from the source.
-/

namespace Blog

/-- A calendar date as written in a front-matter `date:` field (`YYYY-MM-DD`). -/
structure PDate where
  year : Nat
  month : Nat
  day : Nat
deriving DecidableEq

/-- Numeric key giving the chronological order of dates: `y*10000 + m*100 + d`. -/
def PDate.key (d : PDate) : Nat :=
  d.year * 10000 + d.month * 100 + d.day

/-- Gregorian leap-year test. -/
def isLeapYear (y : Nat) : Bool :=
  (y % 4 == 0 && y % 100 != 0) || (y % 400 == 0)

/-- Number of days of month `m` in year `y` (Gregorian calendar). -/
def daysInMonth (y m : Nat) : Nat :=
  if m == 2 then (if isLeapYear y then 29 else 28)
  else if m == 4 || m == 6 || m == 9 || m == 11 then 30
  else 31

/-- A date is a valid calendar date. -/
def PDate.valid (d : PDate) : Bool :=
  1 ≤ d.month && d.month ≤ 12 && 1 ≤ d.day && d.day ≤ daysInMonth d.year d.month

/-- The raw front-matter block of a content file, field by field.  Fields that a
file may omit are `Option`s; `keywords` and `hashtags` are lists that may be
empty. -/
structure FrontMatter where
  title : Option String
  description : Option String
  category : Option String
  date : Option PDate
  keywords : List String
  hashtags : List String
deriving DecidableEq

/-- A parsed content document: the slug (derived from the storage folder) plus
the required front-matter fields and the keyword list. -/
structure Post where
  slug : String
  title : String
  description : String
  category : String
  date : PDate
  keywords : List String
deriving DecidableEq

/-- Error taxonomy of the pipeline. -/
inductive BlogError where
  | contentParse
  | notFound
  | invalidArgument
deriving DecidableEq

/-- Modelled from the spec: parsing one content file (the parsing step of
`getAllPosts` in the absent `blog.server` module).  A file whose front-matter
misses a required field (`title`, `description`, `category`, `date`) fails with
`ContentParseError`. -/
def parsePost (slug : String) (fm : FrontMatter) : Except BlogError Post :=
  match fm.title, fm.description, fm.category, fm.date with
  | some t, some de, some c, some da =>
      .ok { slug := slug, title := t, description := de, category := c,
            date := da, keywords := fm.keywords }
  | _, _, _, _ => .error .contentParse

/-- Front-matter of `src/content/blog/building-a-treeshakable-library-with-rollup/index.mdx`. -/
def fmRollup : FrontMatter :=
  { title := some "Building a Tree-shakable Library with Rollup"
    description := some "A missing guideline for JavaScript library authors on building and distributing a tree-shakable library using RollupJS."
    category := some "Engineering"
    date := some ⟨2020, 6, 28⟩
    keywords := ["rollup", "bundler", "tutorial"]
    hashtags := [] }

/-- Front-matter of `src/content/blog/debounce-vs-throttle/index.mdx`. -/
def fmDebounce : FrontMatter :=
  { title := some "Debounce vs Throttle: Definitive Visual Guide"
    description := some "A complete guide to learn the difference between debounce and throttle using visual examples. Never confuse the two again."
    category := some "Engineering"
    date := some ⟨2019, 12, 23⟩
    keywords := ["debounce", "throttle", "javascript", "event", "events handling",
      "response rate", "ball machine", "ball vending machine", "interactive example",
      "definitive guide"]
    hashtags := ["javascript", "debounce", "tips"] }

/-- Front-matter of `src/content/blog/how-to-ask-questions/index.mdx`. -/
def fmQuestions : FrontMatter :=
  { title := some "How To Ask Questions?"
    description := some "Asking the right questions in engineering is hard. This article makes it a bit easier."
    category := some "Culture"
    date := some ⟨2020, 9, 4⟩
    keywords := ["question", "asking", "beginner", "software engineering"]
    hashtags := ["SoftwareEngineer", "article", "blog"] }

/-- Front-matter of `src/content/blog/my-struggle-with-remix/index.mdx`. -/
def fmRemix : FrontMatter :=
  { title := some "My Struggle With Remix"
    description := some "Remix is a fantastic framework but it\x27s not without its issues. Here are some of my struggles after building a few different projects with it."
    category := some "Engineering"
    date := some ⟨2023, 5, 10⟩
    keywords := ["remix", "struggle", "issues", "framework", "mdx"]
    hashtags := [] }

/-- Front-matter of `src/content/blog/practical-guide-to-custom-jest-matchers/index.mdx`. -/
def fmJest : FrontMatter :=
  { title := some "Practical Guide to Custom Jest Matchers"
    description := some "Learn how to create custom Jest matchers to reduce the repetition in your tests and make them more readable."
    category := some "Engineering"
    date := some ⟨2022, 6, 22⟩
    keywords := ["jest", "matcher", "symmetric", "asymmetric", "extend", "custom"]
    hashtags := [] }

/-- Front-matter of `src/content/blog/why-i-wouldnt-want-to-have-an-engineering-degree/index.mdx`. -/
def fmDegree : FrontMatter :=
  { title := some "Why I Wouldn\x27t Want to Have an Engineering Degree"
    description := some "Coming from a non-technical background is challenging. Yet I wouldn\x27t want to have studied software engineering regardless because it would\x27ve taken one little but incredibly important thing from me."
    category := some "Culture"
    date := some ⟨2021, 8, 23⟩
    keywords := ["degree", "engineering", "education", "self-taught", "university", "cqrs"]
    hashtags := [] }

/-- Front-matter of the content file `src/unnamed/part_000` (storage location
unknown). -/
def fmForms : FrontMatter :=
  { title := some "Advanced forms in React made easy"
    description := some "Learn how to create clean and performant forms using React Advanced Form package."
    category := some "Engineering"
    date := some ⟨2018, 5, 14⟩
    keywords := ["form", "forms", "react", "advanced"]
    hashtags := [] }

/-- Modelled from the spec: the slug of the content file `src/unnamed/part_000`.
Its storage location is not among the available sources; the spec derives slugs
from the storage location, so it is modelled as the slugified title, which is
distinct from every known slug. -/
def formsSlug : String := "advanced-forms-in-react-made-easy"

/-- The content repository: every content file, as a `(slug, front-matter)`
pair, in discovery order (alphabetical folder order of `src/content/blog`). -/
def contentFiles : List (String × FrontMatter) :=
  [ (formsSlug, fmForms),
    ("building-a-treeshakable-library-with-rollup", fmRollup),
    ("debounce-vs-throttle", fmDebounce),
    ("how-to-ask-questions", fmQuestions),
    ("my-struggle-with-remix", fmRemix),
    ("practical-guide-to-custom-jest-matchers", fmJest),
    ("why-i-wouldnt-want-to-have-an-engineering-degree", fmDegree) ]

/-- Modelled from the spec: `getAllPosts` of the absent `blog.server` module.
Enumerates every content file in discovery order and parses each one; a file
with missing required metadata aborts the whole batch with
`ContentParseError`. -/
def getAllPosts : Except BlogError (List Post) :=
  contentFiles.mapM (fun f => parsePost f.1 f.2)

/-- The parsed document of `src/unnamed/part_000`. -/
def postForms : Post :=
  { slug := formsSlug, title := "Advanced forms in React made easy",
    description := "Learn how to create clean and performant forms using React Advanced Form package.",
    category := "Engineering", date := ⟨2018, 5, 14⟩,
    keywords := ["form", "forms", "react", "advanced"] }

/-- The parsed document of the rollup article. -/
def postRollup : Post :=
  { slug := "building-a-treeshakable-library-with-rollup",
    title := "Building a Tree-shakable Library with Rollup",
    description := "A missing guideline for JavaScript library authors on building and distributing a tree-shakable library using RollupJS.",
    category := "Engineering", date := ⟨2020, 6, 28⟩,
    keywords := ["rollup", "bundler", "tutorial"] }

/-- The parsed document of the debounce article. -/
def postDebounce : Post :=
  { slug := "debounce-vs-throttle",
    title := "Debounce vs Throttle: Definitive Visual Guide",
    description := "A complete guide to learn the difference between debounce and throttle using visual examples. Never confuse the two again.",
    category := "Engineering", date := ⟨2019, 12, 23⟩,
    keywords := ["debounce", "throttle", "javascript", "event", "events handling",
      "response rate", "ball machine", "ball vending machine", "interactive example",
      "definitive guide"] }

/-- The parsed document of the questions article. -/
def postQuestions : Post :=
  { slug := "how-to-ask-questions", title := "How To Ask Questions?",
    description := "Asking the right questions in engineering is hard. This article makes it a bit easier.",
    category := "Culture", date := ⟨2020, 9, 4⟩,
    keywords := ["question", "asking", "beginner", "software engineering"] }

/-- The parsed document of the remix article. -/
def postRemix : Post :=
  { slug := "my-struggle-with-remix", title := "My Struggle With Remix",
    description := "Remix is a fantastic framework but it\x27s not without its issues. Here are some of my struggles after building a few different projects with it.",
    category := "Engineering", date := ⟨2023, 5, 10⟩,
    keywords := ["remix", "struggle", "issues", "framework", "mdx"] }

/-- The parsed document of the jest article. -/
def postJest : Post :=
  { slug := "practical-guide-to-custom-jest-matchers",
    title := "Practical Guide to Custom Jest Matchers",
    description := "Learn how to create custom Jest matchers to reduce the repetition in your tests and make them more readable.",
    category := "Engineering", date := ⟨2022, 6, 22⟩,
    keywords := ["jest", "matcher", "symmetric", "asymmetric", "extend", "custom"] }

/-- The parsed document of the degree article. -/
def postDegree : Post :=
  { slug := "why-i-wouldnt-want-to-have-an-engineering-degree",
    title := "Why I Wouldn\x27t Want to Have an Engineering Degree",
    description := "Coming from a non-technical background is challenging. Yet I wouldn\x27t want to have studied software engineering regardless because it would\x27ve taken one little but incredibly important thing from me.",
    category := "Culture", date := ⟨2021, 8, 23⟩,
    keywords := ["degree", "engineering", "education", "self-taught", "university", "cqrs"] }

/-- The parsed document set of the repository, in discovery order. -/
def allPosts : List Post :=
  [postForms, postRollup, postDebounce, postQuestions, postRemix, postJest, postDegree]

/-- Modelled from the spec: `getPostContent` of the absent `blog.server`
module.  Resolves one document by identifier; fails with `NotFoundError` when
no file maps to the identifier.  Parse errors of the enumeration propagate. -/
def getPostContent (slug : String) : Except BlogError Post :=
  match getAllPosts with
  | .error e => .error e
  | .ok posts =>
      match posts.find? (fun p => p.slug == slug) with
      | some p => .ok p
      | none => .error .notFound

/-- Lexicographic comparison of two character lists by code point, used as the
deterministic final tie-break on identifiers. -/
def charListLeb : List Char → List Char → Bool
  | [], _ => true
  | _ :: _, [] => false
  | a :: as, b :: bs =>
    if a.toNat < b.toNat then true
    else if b.toNat < a.toNat then false
    else charListLeb as bs

/-- Lexicographic order on identifiers (slugs). -/
def slugLe (a b : String) : Prop := charListLeb a.data b.data = true

instance : DecidableRel slugLe := fun _ _ => Bool.decEq _ _

/-- Chronological comparison of posts by `publishedDate`, most recent first. -/
def postDateGE (a b : Post) : Prop := b.date.key ≤ a.date.key

instance : DecidableRel postDateGE := fun _ _ => Nat.decLe _ _

/-- Modelled from the spec: `sortPostsByDate` of the absent `blog.server`
module — stable sort by `publishedDate`, descending by default; documents with
equal dates keep their original discovery order. -/
def sortPostsByDate (posts : List Post) : List Post :=
  List.insertionSort postDateGE posts

/-- Modelled from the spec and the index route: the JS `sortPostsByDate` sorts
its argument array in place (`Array.prototype.sort` semantics) and returns it.
The mutation is embedded by explicit state passing: the first component is the
return value of the call, the second the contents of the argument array after
the call. -/
def sortPostsByDateCall (posts : List Post) : List Post × List Post :=
  (sortPostsByDate posts, sortPostsByDate posts)

/-- The loader of the blog index route (`src/unnamed/part_001`): fetches all
posts, calls `sortPostsByDate(posts)` discarding the return value, and serves
the array bound to `posts` — that is, its contents after the call. -/
def indexLoader : Except BlogError (List Post) :=
  match getAllPosts with
  | .error e => .error e
  | .ok posts => .ok (sortPostsByDateCall posts).2

/-- Modelled from the spec: the similarity weights are a configuration surface
(documented constants); an exact category match is the dominant signal. -/
def categoryMatchWeight : Nat := 2

/-- Modelled from the spec: the incremental weight of each shared keyword. -/
def sharedKeywordWeight : Nat := 1

/-- Number of distinct keywords shared by the two documents (case-sensitive
string equality, set intersection of the keyword lists). -/
def sharedKeywordCount (src cand : Post) : Nat :=
  (src.keywords.dedup.filter (fun k => cand.keywords.contains k)).length

/-- Modelled from the spec: the similarity of a candidate to the source — an
exact category match contributes `categoryMatchWeight`, each shared keyword
contributes `sharedKeywordWeight`. -/
def similarityScore (src cand : Post) : Nat :=
  (if cand.category == src.category then categoryMatchWeight else 0)
    + sharedKeywordWeight * sharedKeywordCount src cand

/-- The recommendation ranking: descending similarity score; candidates with
equal score by descending `publishedDate`; remaining ties by lexicographic
identifier. -/
def ranksBefore (src a b : Post) : Prop :=
  similarityScore src b < similarityScore src a
    ∨ (similarityScore src a = similarityScore src b
        ∧ (b.date.key < a.date.key
            ∨ (a.date.key = b.date.key ∧ slugLe a.slug b.slug)))

instance (src : Post) : DecidableRel (ranksBefore src) := fun _ _ =>
  inferInstanceAs (Decidable (_ ∨ _))

/-- Modelled from the spec: `recommend(source, candidates, limit)` — the
Recommendation Selector.  A negative limit is a precondition violation and
fails with `InvalidArgumentError`.  Otherwise the source is excluded from the
candidates by identifier equality, the rest are ranked by `ranksBefore`, and
the top `limit` entries are returned.  Zero-scoring candidates rank below every
scoring one in `ranksBefore`, ordered among themselves by most recent date, so
they fill the remaining slots exactly as the backfill of the spec. -/
def recommend (source : Post) (candidates : List Post) (limit : Int) :
    Except BlogError (List Post) :=
  if limit < 0 then .error .invalidArgument
  else
    .ok ((List.insertionSort (ranksBefore source)
        (candidates.filter (fun p => p.slug != source.slug))).take limit.toNat)

/-- Modelled from the spec: `getRecommendedPosts(post, limit)` of the absent
`blog.server` module — the full document set feeds the selector as candidate
pool. -/
def getRecommendedPosts (post : Post) (limit : Int) :
    Except BlogError (List Post) :=
  match getAllPosts with
  | .error e => .error e
  | .ok posts => recommend post posts limit

/-- The loader of `src/app/routes/blog.$slug.tsx`: resolves the post by slug,
then its recommended posts with limit 3; any error propagates to the caller. -/
def blogPostLoader (slug : String) : Except BlogError (Post × List Post) :=
  match getPostContent slug with
  | .error e => .error e
  | .ok post =>
      match getRecommendedPosts post 3 with
      | .error e => .error e
      | .ok recs => .ok (post, recs)

/-- Document A of the spec scenario: category Engineering, keywords go and
concurrency. -/
def specPostA : Post :=
  { slug := "post-a", title := "A", description := "A",
    category := "Engineering", date := ⟨2021, 1, 1⟩,
    keywords := ["go", "concurrency"] }

/-- Document B of the spec scenario: category Engineering, keyword rust. -/
def specPostB : Post :=
  { slug := "post-b", title := "B", description := "B",
    category := "Engineering", date := ⟨2020, 1, 1⟩,
    keywords := ["rust"] }

/-- Document C of the spec scenario: category Culture, no keywords; more
recent than B, so it would precede B on recency alone. -/
def specPostC : Post :=
  { slug := "post-c", title := "C", description := "C",
    category := "Culture", date := ⟨2022, 1, 1⟩,
    keywords := [] }

/-! ## Theorems -/

/-- The enumeration of the repository succeeds and yields the seven documents. -/
theorem getAllPosts_eq : getAllPosts = .ok allPosts := rfl

/-- Totality of the lexicographic comparison of character lists. -/
theorem charListLeb_total : ∀ as bs : List Char,
    charListLeb as bs = true ∨ charListLeb bs as = true
  | [], _ => Or.inl rfl
  | _ :: _, [] => Or.inr rfl
  | a :: as, b :: bs => by
    by_cases h1 : a.toNat < b.toNat
    · left
      simp [charListLeb, h1]
    · by_cases h2 : b.toNat < a.toNat
      · right
        simp [charListLeb, h2]
      · have ih := charListLeb_total as bs
        simpa [charListLeb, h1, h2] using ih

/-- Transitivity of the lexicographic comparison of character lists. -/
theorem charListLeb_trans : ∀ as bs cs : List Char,
    charListLeb as bs = true → charListLeb bs cs = true → charListLeb as cs = true
  | [], _, _, _, _ => rfl
  | _ :: _, [], _, h1, _ => by simp [charListLeb] at h1
  | _ :: _, _ :: _, [], _, h2 => by simp [charListLeb] at h2
  | a :: as, b :: bs, c :: cs, h1, h2 => by
    simp only [charListLeb] at h1 h2 ⊢
    by_cases hab : a.toNat < b.toNat
    · rw [if_pos hab] at h1
      by_cases hbc : b.toNat < c.toNat
      · rw [if_pos (show a.toNat < c.toNat by omega)]
      · by_cases hcb : c.toNat < b.toNat
        · rw [if_neg hbc, if_pos hcb] at h2
          simp at h2
        · rw [if_pos (show a.toNat < c.toNat by omega)]
    · by_cases hba : b.toNat < a.toNat
      · rw [if_neg hab, if_pos hba] at h1
        simp at h1
      · rw [if_neg hab, if_neg hba] at h1
        by_cases hbc : b.toNat < c.toNat
        · rw [if_pos (show a.toNat < c.toNat by omega)]
        · by_cases hcb : c.toNat < b.toNat
          · rw [if_neg hbc, if_pos hcb] at h2
            simp at h2
          · rw [if_neg hbc, if_neg hcb] at h2
            rw [if_neg (show ¬ a.toNat < c.toNat by omega),
              if_neg (show ¬ c.toNat < a.toNat by omega)]
            exact charListLeb_trans as bs cs h1 h2

/-- Totality of the identifier order. -/
theorem slugLe_total (a b : String) : slugLe a b ∨ slugLe b a :=
  charListLeb_total a.data b.data

/-- Transitivity of the identifier order. -/
theorem slugLe_trans (a b c : String) (h1 : slugLe a b) (h2 : slugLe b c) :
    slugLe a c :=
  charListLeb_trans a.data b.data c.data h1 h2

/-- Totality of the recommendation ranking. -/
theorem ranksBefore_total (src : Post) :
    ∀ a b, ranksBefore src a b ∨ ranksBefore src b a := by
  intro a b
  unfold ranksBefore
  rcases Nat.lt_trichotomy (similarityScore src a) (similarityScore src b) with h | h | h
  · exact Or.inr (Or.inl h)
  · rcases Nat.lt_trichotomy a.date.key b.date.key with hd | hd | hd
    · exact Or.inr (Or.inr ⟨h.symm, Or.inl hd⟩)
    · rcases slugLe_total a.slug b.slug with hs | hs
      · exact Or.inl (Or.inr ⟨h, Or.inr ⟨hd, hs⟩⟩)
      · exact Or.inr (Or.inr ⟨h.symm, Or.inr ⟨hd.symm, hs⟩⟩)
    · exact Or.inl (Or.inr ⟨h, Or.inl hd⟩)
  · exact Or.inl (Or.inl h)

/-- Transitivity of the recommendation ranking. -/
theorem ranksBefore_trans (src : Post) :
    ∀ a b c, ranksBefore src a b → ranksBefore src b c → ranksBefore src a c := by
  intro a b c h1 h2
  unfold ranksBefore at h1 h2 ⊢
  rcases h1 with h1 | ⟨e1, h1⟩
  · rcases h2 with h2 | ⟨e2, h2⟩
    · exact Or.inl (by omega)
    · exact Or.inl (by omega)
  · rcases h2 with h2 | ⟨e2, h2⟩
    · exact Or.inl (by omega)
    · refine Or.inr ⟨by omega, ?_⟩
      rcases h1 with h1 | ⟨d1, h1⟩
      · rcases h2 with h2 | ⟨d2, h2⟩
        · exact Or.inl (by omega)
        · exact Or.inl (by omega)
      · rcases h2 with h2 | ⟨d2, h2⟩
        · exact Or.inl (by omega)
        · exact Or.inr ⟨by omega, slugLe_trans _ _ _ h1 h2⟩

/-- Splitting a candidate list into the matches and non-matches of the source
identifier preserves its length. -/
theorem filter_slug_length (source : Post) : ∀ candidates : List Post,
    (candidates.filter (fun p => p.slug != source.slug)).length
      + candidates.countP (fun p => p.slug == source.slug) = candidates.length := by
  intro candidates
  induction candidates with
  | nil => rfl
  | cons p ps ih =>
    by_cases hp : p.slug = source.slug
    · simp [List.filter_cons, List.countP_cons, hp]
      omega
    · simp [List.filter_cons, List.countP_cons, hp]
      omega

/-- C4: `sortPostsByDate` is a stable sort by `metadata.publishedDate`
(descending by default): its output is sorted most-recent-first and is a
permutation of the input, and any two documents with identical `publishedDate`
keep in the output the relative order they had in the input, on every call. -/
theorem sortPostsByDate_stable (posts : List Post) :
    (sortPostsByDate posts).Sorted postDateGE
    ∧ (sortPostsByDate posts).Perm posts
    ∧ ∀ a b : Post, a.date = b.date → List.Sublist [a, b] posts →
        List.Sublist [a, b] (sortPostsByDate posts) := by
  haveI : IsTotal Post postDateGE := ⟨fun a b => Nat.le_total _ _⟩
  haveI : IsTrans Post postDateGE := ⟨fun _ _ _ h1 h2 => Nat.le_trans h2 h1⟩
  refine ⟨List.sorted_insertionSort _ _, List.perm_insertionSort _ _, ?_⟩
  intro a b hdate hsub
  exact List.pair_sublist_insertionSort (show postDateGE a b by simp [postDateGE, hdate]) hsub

/-- Witness for C4: a two-element list with identical dates keeps its order
through the sort, and a concrete sort is sorted and a permutation. -/
theorem sortPostsByDate_stable_witness :
    (List.Sublist [specPostB, { specPostB with slug := "post-b2" }]
        (sortPostsByDate [specPostB, { specPostB with slug := "post-b2" }]))
    ∧ (sortPostsByDate [specPostB, specPostC]).Sorted postDateGE := by
  constructor
  · exact (sortPostsByDate_stable _).2.2 _ _ rfl (List.Sublist.refl _)
  · exact (sortPostsByDate_stable [specPostB, specPostC]).1

/-- C5: `sortPostsByDate` is idempotent: sorting an already-sorted sequence,
in particular its own output on any document list, yields the same
sequence. -/
theorem sortPostsByDate_idempotent (posts : List Post) :
    sortPostsByDate (sortPostsByDate posts) = sortPostsByDate posts := by
  haveI : IsTotal Post postDateGE := ⟨fun a b => Nat.le_total _ _⟩
  haveI : IsTrans Post postDateGE := ⟨fun _ _ _ h1 h2 => Nat.le_trans h2 h1⟩
  exact (List.sorted_insertionSort postDateGE posts).insertionSort_eq

/-- Witness for C5: sorting the already-sorted document set again yields the
same sequence. -/
theorem sortPostsByDate_idempotent_witness :
    sortPostsByDate (sortPostsByDate allPosts) = sortPostsByDate allPosts :=
  sortPostsByDate_idempotent allPosts

/-- C9: repository data-model invariants: every content file parses with all
required front-matter fields present (the enumeration succeeds), the
identifiers of the document set are pairwise distinct, and every
`publishedDate` is a valid calendar date. -/
theorem repository_invariants :
    getAllPosts = .ok allPosts
    ∧ (allPosts.map Post.slug).Nodup
    ∧ ∀ p ∈ allPosts, p.date.valid = true :=
  ⟨rfl, by decide, by decide⟩

/-- C10: `sortPostsByDate` sorts its argument array in place: after the call
the contents bound to `posts` are themselves in sorted order (a sorted
permutation of the original), the return value is that same array, and the
blog index loader discards the return value and serves exactly the mutated
`posts` array. -/
theorem indexLoader_serves_mutated :
    (∀ posts : List Post,
        (sortPostsByDateCall posts).2.Sorted postDateGE
        ∧ ((sortPostsByDateCall posts).2).Perm posts
        ∧ (sortPostsByDateCall posts).1 = (sortPostsByDateCall posts).2)
    ∧ indexLoader = .ok (sortPostsByDateCall allPosts).2 := by
  constructor
  · intro posts
    haveI : IsTotal Post postDateGE := ⟨fun a b => Nat.le_total _ _⟩
    haveI : IsTrans Post postDateGE := ⟨fun _ _ _ h1 h2 => Nat.le_trans h2 h1⟩
    exact ⟨List.sorted_insertionSort _ _, List.perm_insertionSort _ _, rfl⟩
  · rfl

/-- Witness for C9: the remix article has a valid publication date. -/
theorem repository_invariants_witness : postRemix.date.valid = true :=
  repository_invariants.2.2 postRemix (by decide)

/-- Witness for C10: the contents of the posts array after the in-place sort
call on the document set are sorted, and the index loader serves them. -/
theorem indexLoader_serves_mutated_witness :
    (sortPostsByDateCall allPosts).2.Sorted postDateGE
    ∧ indexLoader = .ok (sortPostsByDateCall allPosts).2 :=
  ⟨(indexLoader_serves_mutated.1 allPosts).1, indexLoader_serves_mutated.2⟩

/-- C1: for every source document, candidate list and limit `N`, a successful
`recommend source candidates N` contains no document whose identifier equals
the source identifier, and its length is at most `N`. -/
theorem recommend_excludes_source_bounded
    (source : Post) (candidates : List Post) (N : Int) (out : List Post)
    (h : recommend source candidates N = .ok out) :
    (∀ p ∈ out, p.slug ≠ source.slug) ∧ (out.length : Int) ≤ N := by
  unfold recommend at h
  by_cases hneg : N < 0
  · rw [if_pos hneg] at h
    exact absurd h (by simp)
  · rw [if_neg hneg] at h
    injection h with h
    subst h
    constructor
    · intro p hp
      have hp1 := (List.take_sublist _ _).subset hp
      have hp2 := (List.mem_insertionSort _).mp hp1
      have hp3 := (List.mem_filter.mp hp2).2
      simpa using hp3
    · have h1 : (List.take N.toNat (List.insertionSort (ranksBefore source)
          (candidates.filter (fun p => p.slug != source.slug)))).length ≤ N.toNat := by
        simp [List.length_take]
      omega

/-- Witness for C1 at the spec scenario inputs. -/
theorem recommend_excludes_source_bounded_witness :
    (∀ p ∈ [specPostB, specPostC], p.slug ≠ specPostA.slug)
    ∧ (([specPostB, specPostC] : List Post).length : Int) ≤ 2 :=
  recommend_excludes_source_bounded specPostA [specPostB, specPostC] 2
    [specPostB, specPostC] rfl

/-- C2: the output of `recommend` is ordered by the recommendation ranking:
descending similarity score (an exact category match contributes the fixed
`categoryMatchWeight`, each shared keyword the incremental
`sharedKeywordWeight`), candidates with equal score by descending
`publishedDate`, and remaining ties by lexicographic identifier. -/
theorem recommend_output_ordered
    (source : Post) (candidates : List Post) (N : Int) (out : List Post)
    (h : recommend source candidates N = .ok out) :
    out.Pairwise (ranksBefore source) := by
  unfold recommend at h
  by_cases hneg : N < 0
  · rw [if_pos hneg] at h
    exact absurd h (by simp)
  · rw [if_neg hneg] at h
    injection h with h
    subst h
    haveI : IsTotal Post (ranksBefore source) := ⟨ranksBefore_total source⟩
    haveI : IsTrans Post (ranksBefore source) := ⟨ranksBefore_trans source⟩
    exact List.Pairwise.sublist (List.take_sublist _ _)
      (List.sorted_insertionSort (ranksBefore source) _)

/-- Witness for C2 at the spec scenario inputs. -/
theorem recommend_output_ordered_witness :
    ([specPostB, specPostC] : List Post).Pairwise (ranksBefore specPostA) :=
  recommend_output_ordered specPostA [specPostB, specPostC] 2
    [specPostB, specPostC] rfl

/-- C3: `recommend` returns the top `limit` entries and backfills zero-scoring
candidates: a successful output has length exactly `min limit n` where `n`
counts the candidates other than the source, hence at least
`min(limit, |candidates| - 1)` whenever the source occurs at most once among
the candidates; on the spec scenario `recommend(A, [B, C], 2)` returns
`[B, C]` and `recommend(A, [], 3)` returns the empty sequence. -/
theorem recommend_backfill_scenarios :
    (∀ (source : Post) (candidates : List Post) (N : Int) (out : List Post),
        recommend source candidates N = .ok out →
          out.length = min N.toNat
              (candidates.filter (fun p => p.slug != source.slug)).length
          ∧ (candidates.countP (fun p => p.slug == source.slug) ≤ 1 →
              min N.toNat (candidates.length - 1) ≤ out.length))
    ∧ recommend specPostA [specPostB, specPostC] 2 = .ok [specPostB, specPostC]
    ∧ recommend specPostA [] 3 = .ok [] := by
  refine ⟨?_, rfl, rfl⟩
  intro source candidates N out h
  unfold recommend at h
  by_cases hneg : N < 0
  · rw [if_pos hneg] at h
    exact absurd h (by simp)
  · rw [if_neg hneg] at h
    injection h with h
    subst h
    have hsplit := filter_slug_length source candidates
    constructor
    · simp [List.length_take, List.length_insertionSort]
    · intro hcount
      simp only [List.length_take, List.length_insertionSort]
      omega

/-- Witness for C3: the length equality and the lower bound at the spec
scenario inputs. -/
theorem recommend_backfill_scenarios_witness :
    ([specPostB, specPostC] : List Post).length =
      min (Int.toNat 2) (([specPostB, specPostC] : List Post).filter
        (fun p => p.slug != specPostA.slug)).length
    ∧ min (Int.toNat 2) (([specPostB, specPostC] : List Post).length - 1) ≤
        ([specPostB, specPostC] : List Post).length :=
  ⟨(recommend_backfill_scenarios.1 specPostA [specPostB, specPostC] 2
      [specPostB, specPostC] rfl).1,
   (recommend_backfill_scenarios.1 specPostA [specPostB, specPostC] 2
      [specPostB, specPostC] rfl).2 (by decide)⟩

/-- C6: round-trip of enumeration and lookup: every document of the
enumerated repository is returned, unchanged, by a lookup of its own
identifier. -/
theorem getPostContent_roundtrip (D : Post) (posts : List Post)
    (hall : getAllPosts = .ok posts) (hD : D ∈ posts) :
    getPostContent D.slug = .ok D := by
  have heq : posts = allPosts := by
    have h2 := hall.symm.trans getAllPosts_eq
    injection h2
  subst heq
  simp only [allPosts, List.mem_cons, List.not_mem_nil, or_false] at hD
  rcases hD with rfl | rfl | rfl | rfl | rfl | rfl | rfl <;> rfl

/-- Witness for C6: looking up the remix article by its identifier returns
it. -/
theorem getPostContent_roundtrip_witness :
    getPostContent postRemix.slug = .ok postRemix :=
  getPostContent_roundtrip postRemix allPosts rfl (by decide)

/-- C7: a lookup of an identifier to which no content file maps fails with
`NotFoundError`, and the error is surfaced through the blog post loader, never
swallowed; in particular for the identifier does-not-exist. -/
theorem getPostContent_unmapped_notFound :
    (∀ s : String, (∀ f ∈ contentFiles, f.1 ≠ s) →
        getPostContent s = .error .notFound
        ∧ blogPostLoader s = .error .notFound)
    ∧ getPostContent "does-not-exist" = .error .notFound := by
  refine ⟨?_, rfl⟩
  intro s hs
  have hfind : allPosts.find? (fun p => p.slug == s) = none := by
    rw [List.find?_eq_none]
    intro p hp
    simp only [allPosts, List.mem_cons, List.not_mem_nil, or_false] at hp
    simp only [beq_iff_eq]
    rcases hp with rfl | rfl | rfl | rfl | rfl | rfl | rfl
    · exact hs (formsSlug, fmForms) (by simp [contentFiles])
    · exact hs ("building-a-treeshakable-library-with-rollup", fmRollup) (by simp [contentFiles])
    · exact hs ("debounce-vs-throttle", fmDebounce) (by simp [contentFiles])
    · exact hs ("how-to-ask-questions", fmQuestions) (by simp [contentFiles])
    · exact hs ("my-struggle-with-remix", fmRemix) (by simp [contentFiles])
    · exact hs ("practical-guide-to-custom-jest-matchers", fmJest) (by simp [contentFiles])
    · exact hs ("why-i-wouldnt-want-to-have-an-engineering-degree", fmDegree) (by simp [contentFiles])
  have hget : getPostContent s = .error BlogError.notFound := by
    have hred : getPostContent s =
        match allPosts.find? (fun p => p.slug == s) with
        | some p => Except.ok p
        | none => Except.error BlogError.notFound := rfl
    rw [hred, hfind]
  refine ⟨hget, ?_⟩
  unfold blogPostLoader
  rw [hget]

/-- Witness for C7 at the identifier does-not-exist. -/
theorem getPostContent_unmapped_notFound_witness :
    getPostContent "does-not-exist" = .error .notFound
    ∧ blogPostLoader "does-not-exist" = .error .notFound :=
  getPostContent_unmapped_notFound.1 "does-not-exist" (by decide)

/-- C8: `recommend` fails exactly when the limit is negative, and then with
`InvalidArgumentError`; a limit of zero yields the empty sequence without
error; a non-negative limit always succeeds, so there is no other failure
mode. -/
theorem recommend_error_iff (source : Post) (candidates : List Post) (N : Int) :
    (recommend source candidates N = .error .invalidArgument ↔ N < 0)
    ∧ (N = 0 → recommend source candidates N = .ok [])
    ∧ (0 ≤ N → ∃ out, recommend source candidates N = .ok out) := by
  unfold recommend
  by_cases h : N < 0
  · rw [if_pos h]
    exact ⟨⟨fun _ => h, fun _ => rfl⟩, fun h0 => absurd h (by omega),
      fun h0 => absurd h (by omega)⟩
  · rw [if_neg h]
    refine ⟨⟨fun he => absurd he (by simp), fun hn => absurd hn h⟩,
      fun h0 => ?_, fun _ => ⟨_, rfl⟩⟩
    subst h0
    rfl

/-- Witness for C8: limit 0 on the spec scenario returns the empty sequence
without error. -/
theorem recommend_error_iff_witness :
    recommend specPostA [specPostB, specPostC] 0 = .ok [] :=
  (recommend_error_iff specPostA [specPostB, specPostC] 0).2.1 rfl

end Blog




